import Mathlib

/-!
Shallow embedding of src/src/ya_micro_batcher.ts (class YaMicroBatcher) and
src/utils/utils.ts, with theorems checking the natural-language specification
against it.

Modelling conventions:
* generateUUID returns a fresh unique string per call; identifiers are
  modelled as natural numbers drawn from a counter nextId, so freshness is
  expressed by the invariant that every stored key is below nextId.
* JS Map<string, T> is modelled as an insertion-ordered association list with
  unique keys; Map.set updates in place or appends (mapSet), Map.get/has is
  lookupKV, Map.size is List.length.
* The memory estimator calculateMemory([job]) is an external collaborator,
  passed as a function calc : T -> Rat; memory values are rationals.
* The caller-supplied batchProcessor is passed as bp : List (Nat x T) ->
  Except String (List (JobResult T)); Except.error models a rejected promise.
* batchSize and batchTimeout are integers (Int); the constructor stores
  batchTimeout as Option Int because the source expression can leave the
  field undefined.
* Asynchrony: processJobs has exactly one suspension point (the await of
  batchProcessor). It is split into processJobsPhase1 (the synchronous
  prefix, source lines 184-197, returning the snapshot handed to the
  processor) and processJobsPhase2Ok (the continuation after the processor
  resolves, source lines 199-205); on rejection the continuation is skipped
  and the rejection propagates. Run-to-completion wrappers (processJobsRun,
  submitRun, ...) model whole calls with no interleaving; interleaved
  executions are modelled by composing the phases explicitly.
* A StepOut records, besides the final state, the list of processor
  invocations made during the step (calls, each entry the snapshot handed
  over), errors forwarded to console.error (loggedErrors), rejections that no
  handler observes (unhandled), and the operation's own promise outcome.
* The timer: timeoutId models truthiness of the timeoutId field; timerLive
  models whether an armed, uncancelled timer exists (clearTimeout kills the
  timer but the source does not always null the field).
-/

/-- The JobStatus enum of the source. -/
inductive JobStatus where
  | SUBMITTED
  | FAILED
  | PROCESSED
  | TIMEOUT
  | NOT_FOUND
deriving DecidableEq, Repr

/-- The AckJobSubmitted record shape (status, optional message, jobId). -/
structure AckJobSubmitted where
  status : JobStatus
  message : Option String := none
  jobId : Nat
deriving DecidableEq, Repr

/-- The JobResult record shape returned by the batch processor. -/
structure JobResult (T : Type) where
  status : JobStatus
  message : Option String := none
  jobId : Nat
  result : Option T := none
deriving DecidableEq, Repr

/-- The constructor configuration object. Optional / omittable fields are
Option; hasBatchProcessor models whether config.batchProcessor is supplied
(the callback itself is passed separately to the operations that call it). -/
structure YaMicroBatcherConfig where
  batchSize : Option Int := none
  batchTimeout : Option Int := none
  returnAck : Option Bool := none
  memoryLimit : Option Rat := none
  autoProcessOnMemoryLimit : Option Bool := none
  hasBatchProcessor : Bool := true
deriving DecidableEq, Repr

/-- Instance state of a YaMicroBatcher. -/
structure BatcherState (T : Type) where
  batchSize : Int
  batchTimeout : Option Int
  memoryLimit : Rat
  autoProcessOnMemoryLimit : Bool
  returnAck : Bool
  currentMemory : Rat
  jobs : List (Nat × T)
  finishedJobs : List (Nat × Option T)
  timeoutId : Bool
  timerLive : Bool
  shutDown : Bool
  isProcessing : Bool
  nextId : Nat
deriving DecidableEq, Repr

/-- JS Map.set: replace in place if the key is present, else append. -/
def mapSet {β : Type} (m : List (Nat × β)) (k : Nat) (v : β) : List (Nat × β) :=
  match m with
  | [] => [(k, v)]
  | (k₀, v₀) :: rest => if k₀ = k then (k, v) :: rest else (k₀, v₀) :: mapSet rest k v

/-- JS Map.get / Map.has: first binding of the key, if any. -/
def lookupKV {β : Type} (m : List (Nat × β)) (k : Nat) : Option β :=
  match m with
  | [] => none
  | (k₀, v₀) :: rest => if k₀ = k then some v₀ else lookupKV rest k

/-- Source line 63:
`config.batchSize ? config.batchSize > 1000 ? 1000 : config.batchSize : 10`.
An absent field and the falsy value 0 give 10; otherwise clamp above 1000. -/
def computeBatchSize (c : Option Int) : Int :=
  match c with
  | none => 10
  | some n => if n ≠ 0 then (if n > 1000 then 1000 else n) else 10

/-- Source line 64:
`config.batchTimeout ?? config.batchTimeout > 100000 ? 100000 : config.batchTimeout`.
By JS precedence this parses as
`(config.batchTimeout ?? (config.batchTimeout > 100000)) ? 100000 : config.batchTimeout`:
when the field is a number the `??` yields that number and its truthiness is
tested; when it is undefined the `??` yields `undefined > 100000`, i.e.
false. So a supplied nonzero value becomes 100000, a supplied 0 stays 0, and
an omitted field stays undefined. -/
def computeBatchTimeout (c : Option Int) : Option Int :=
  let cond : Bool :=
    match c with
    | some n => n ≠ 0
    | none => false
  if cond then some 100000 else c

/-- Source line 65:
`config.memoryLimit ? config.memoryLimit > 1024 ? 1024 : config.memoryLimit : 10`. -/
def computeMemoryLimit (c : Option Rat) : Rat :=
  match c with
  | none => 10
  | some q => if q ≠ 0 then (if q > 1024 then 1024 else q) else 10

/-- The constructor (source lines 61-74): compute the config fields, then
fail if no batchProcessor was supplied. -/
def mkBatcher (T : Type) (cfg : YaMicroBatcherConfig) : Except String (BatcherState T) :=
  let s : BatcherState T :=
    { batchSize := computeBatchSize cfg.batchSize
      batchTimeout := computeBatchTimeout cfg.batchTimeout
      memoryLimit := computeMemoryLimit cfg.memoryLimit
      autoProcessOnMemoryLimit := cfg.autoProcessOnMemoryLimit.getD false
      returnAck := cfg.returnAck.getD false
      currentMemory := 0
      jobs := []
      finishedJobs := []
      timeoutId := false
      timerLive := false
      shutDown := false
      isProcessing := false
      nextId := 0 }
  if cfg.hasBatchProcessor then .ok s else .error "batchProcessor is required"

instance {ε α : Type} [DecidableEq ε] [DecidableEq α] : DecidableEq (Except ε α) := fun a b =>
  match a, b with
  | .ok x, .ok y => if h : x = y then .isTrue (by simp [h]) else .isFalse (by simp [h])
  | .ok _, .error _ => .isFalse (by simp)
  | .error _, .ok _ => .isFalse (by simp)
  | .error x, .error y => if h : x = y then .isTrue (by simp [h]) else .isFalse (by simp [h])

/-- Observable outcome of one run-to-completion operation: final state,
processor invocations made (each the snapshot handed over, in order), errors
forwarded to console.error, rejections no handler observes, and the
operation's own promise outcome. -/
structure StepOut (T : Type) where
  state : BatcherState T
  calls : List (List (Nat × T)) := []
  loggedErrors : List String := []
  unhandled : List String := []
  outcome : Except String Unit := .ok ()
deriving DecidableEq, Repr

/-- StepOut of submit, extended with the resolved value (the acknowledgement
record when returnAck is configured). -/
structure SubmitOut (T : Type) extends StepOut T where
  ack : Option AckJobSubmitted := none
deriving DecidableEq, Repr

/-- Synchronous prefix of processJobs (source lines 184-197): set
isProcessing, cancel and null the timer, fast-path on empty jobs, else swap
the jobs map for a fresh one, reset currentMemory, and hand the swapped-out
snapshot to the processor. Returns the state at the suspension point and the
snapshot passed to batchProcessor (none on the empty fast path, where the
processor is not invoked). -/
def processJobsPhase1 {T : Type} (s : BatcherState T) :
    BatcherState T × Option (List (Nat × T)) :=
  let s₁ := { s with isProcessing := true }
  let s₂ := if s₁.timeoutId then { s₁ with timeoutId := false, timerLive := false } else s₁
  if s₂.jobs.isEmpty then
    ({ s₂ with currentMemory := 0, isProcessing := false }, none)
  else
    ({ s₂ with jobs := [], currentMemory := 0 }, some s₂.jobs)

/-- Source lines 200-202: for each result record, set
`finishedJobs[result.jobId] := snapshot.get(result.jobId)` (the non-null
assertion on get is modelled by storing the Option). -/
def recordResults {T : Type} (snap : List (Nat × T)) (rs : List (JobResult T))
    (fin : List (Nat × Option T)) : List (Nat × Option T) :=
  rs.foldl (fun acc r => mapSet acc r.jobId (lookupKV snap r.jobId)) fin

/-- Continuation of processJobs after batchProcessor resolves (source lines
199-205): record the results into finishedJobs, then `this.jobs.clear()` —
which clears the CURRENT jobs map, i.e. the replacement container — then
clear isProcessing. On rejection this continuation is skipped entirely. -/
def processJobsPhase2Ok {T : Type} (snap : List (Nat × T)) (rs : List (JobResult T))
    (s : BatcherState T) : BatcherState T :=
  { s with
    finishedJobs := recordResults snap rs s.finishedJobs
    jobs := []
    isProcessing := false }

/-- Run-to-completion processJobs (no interleaving between the phases): on
processor rejection the continuation is skipped, so isProcessing stays true
and the rejection propagates as the call's outcome. -/
def processJobsRun {T : Type} (bp : List (Nat × T) → Except String (List (JobResult T)))
    (s : BatcherState T) : StepOut T :=
  let p := processJobsPhase1 s
  match p.2 with
  | none => { state := p.1 }
  | some snap =>
    match bp snap with
    | .ok rs => { state := processJobsPhase2Ok snap rs p.1, calls := [snap] }
    | .error e => { state := p.1, calls := [snap], outcome := .error e }

/-- The three-way branch of processingShedule (source lines 102-111). -/
inductive ScheduleDecision where
  | skip
  | fire
  | armTimer
deriving DecidableEq, Repr

/-- The branch processingShedule takes: return early while isProcessing;
fire when the size trigger or the memory trigger holds; else re-arm the
debounce timer. -/
def scheduleDecision {T : Type} (s : BatcherState T) : ScheduleDecision :=
  if s.isProcessing then .skip
  else if (s.jobs.length : Int) ≥ s.batchSize ∨
      (s.autoProcessOnMemoryLimit ∧ s.currentMemory ≥ s.memoryLimit) then .fire
  else .armTimer

/-- Run-to-completion processingShedule (source lines 101-113). The fire
branch is `this.processJobs().catch(console.error)`: a rejection is forwarded
to console.error and swallowed. The timer branch cancels any existing timer
and arms a new one. -/
def processingSheduleRun {T : Type}
    (bp : List (Nat × T) → Except String (List (JobResult T)))
    (s : BatcherState T) : StepOut T :=
  match scheduleDecision s with
  | .skip => { state := s }
  | .fire =>
    let p := processJobsRun bp s
    match p.outcome with
    | .ok _ => { state := p.state, calls := p.calls }
    | .error e => { state := p.state, calls := p.calls, loggedErrors := [e] }
  | .armTimer => { state := { s with timeoutId := true, timerLive := true } }

/-- Expiry of the armed timer: the callback is `() => this.processJobs()`
(source line 110) with no rejection handler attached, so a rejection is left
unobserved. -/
def timerExpireRun {T : Type}
    (bp : List (Nat × T) → Except String (List (JobResult T)))
    (s : BatcherState T) : StepOut T :=
  let p := processJobsRun bp s
  match p.outcome with
  | .ok _ => { state := p.state, calls := p.calls }
  | .error e => { state := p.state, calls := p.calls, unhandled := [e] }

/-- The mutation part of submit (source lines 87-90): generate a fresh id,
store the job, add the per-job memory estimate. -/
def submitInsert {T : Type} (calcMem : T → Rat) (s : BatcherState T) (job : T) :
    BatcherState T :=
  { s with
    jobs := mapSet s.jobs s.nextId job
    nextId := s.nextId + 1
    currentMemory := s.currentMemory + calcMem job }

/-- Run-to-completion submit (source lines 82-94): reject without any state
change when shut down; otherwise insert, run the trigger evaluation, and
resolve (with the acknowledgement record when returnAck is configured). -/
def submitRun {T : Type} (calcMem : T → Rat)
    (bp : List (Nat × T) → Except String (List (JobResult T)))
    (s : BatcherState T) (job : T) : SubmitOut T :=
  if s.shutDown then
    { state := s, outcome := .error "MicroBatcher is shutdown" }
  else
    let s₁ := submitInsert calcMem s job
    let p := processingSheduleRun bp s₁
    { state := p.state, calls := p.calls, loggedErrors := p.loggedErrors,
      unhandled := p.unhandled,
      ack := if s.returnAck then some { status := .SUBMITTED, jobId := s.nextId } else none }

/-- Run-to-completion shutdown (source lines 120-128): set the flag, cancel
(but do not null) the timer, and if jobs are pending await one processJobs;
its rejection would propagate. -/
def shutdownRun {T : Type}
    (bp : List (Nat × T) → Except String (List (JobResult T)))
    (s : BatcherState T) : StepOut T :=
  let s₁ := { s with shutDown := true }
  let s₂ := if s₁.timeoutId then { s₁ with timerLive := false } else s₁
  if s₂.jobs.length > 0 then processJobsRun bp s₂ else { state := s₂ }

/-- stop (source lines 135-141): set the flag, replace jobs with an empty
map, cancel (but do not null) the timer. The processor is never invoked. -/
def stopRun {T : Type} (s : BatcherState T) : StepOut T :=
  let s₁ := { s with shutDown := true, jobs := [] }
  let s₂ := if s₁.timeoutId then { s₁ with timerLive := false } else s₁
  { state := s₂ }

/-- forceProcess (source lines 151-153): await processJobs unconditionally. -/
def forceProcessRun {T : Type}
    (bp : List (Nat × T) → Except String (List (JobResult T)))
    (s : BatcherState T) : StepOut T :=
  processJobsRun bp s

/-- jobCount (source lines 160-163). -/
def jobCount {T : Type} (s : BatcherState T) : Nat :=
  if s.isProcessing then 0 else s.jobs.length

/-- jobStatus (source lines 171-176). -/
def jobStatus {T : Type} (s : BatcherState T) (jobId : Nat) : AckJobSubmitted :=
  if (lookupKV s.jobs jobId).isSome then
    { status := .SUBMITTED, jobId := jobId }
  else
    { status := .NOT_FOUND, jobId := jobId }

/-- Looking up a key right after mapSet stores it yields the stored value. -/
theorem lookupKV_mapSet_self {β : Type} (m : List (Nat × β)) (k : Nat) (v : β) :
    lookupKV (mapSet m k v) k = some v := by
  induction m with
  | nil => simp [mapSet, lookupKV]
  | cons hd tl ih =>
    obtain ⟨k₀, v₀⟩ := hd
    by_cases h : k₀ = k
    · simp [mapSet, lookupKV, h]
    · simp [mapSet, lookupKV, h, ih]

/-- Characterization of processJobsRun on an empty jobs map: no processor
call, memory reset, flag cleared, timer cancelled. -/
theorem processJobsRun_empty {T : Type}
    (bp : List (Nat × T) → Except String (List (JobResult T)))
    (s : BatcherState T) (h : s.jobs = []) :
    processJobsRun bp s =
      { state := { s with currentMemory := 0, isProcessing := false,
                          timeoutId := false, timerLive := !s.timeoutId && s.timerLive } } := by
  obtain ⟨bs, bt, ml, ap, ra, cm, jobs, fin, ti, tl, sd, ip, ni⟩ := s
  subst h
  cases ti <;> simp [processJobsRun, processJobsPhase1]

/-- Characterization of processJobsRun when jobs are pending and the
processor resolves: exactly one call with the whole snapshot, results
recorded, the replacement container cleared, the flag cleared. -/
theorem processJobsRun_ok {T : Type}
    (bp : List (Nat × T) → Except String (List (JobResult T)))
    (s : BatcherState T) (rs : List (JobResult T))
    (hne : s.jobs ≠ []) (h : bp s.jobs = .ok rs) :
    processJobsRun bp s =
      { state := { s with jobs := [], currentMemory := 0, isProcessing := false,
                          timeoutId := false, timerLive := !s.timeoutId && s.timerLive,
                          finishedJobs := recordResults s.jobs rs s.finishedJobs },
        calls := [s.jobs] } := by
  obtain ⟨bs, bt, ml, ap, ra, cm, jobs, fin, ti, tl, sd, ip, ni⟩ := s
  cases ti <;>
    simp_all [processJobsRun, processJobsPhase1, processJobsPhase2Ok]

/-- Characterization of processJobsRun when jobs are pending and the
processor rejects: one call with the whole snapshot, the continuation is
skipped (isProcessing stays true, finishedJobs untouched), and the rejection
is the outcome. -/
theorem processJobsRun_error {T : Type}
    (bp : List (Nat × T) → Except String (List (JobResult T)))
    (s : BatcherState T) (e : String)
    (hne : s.jobs ≠ []) (h : bp s.jobs = .error e) :
    processJobsRun bp s =
      { state := { s with jobs := [], currentMemory := 0, isProcessing := true,
                          timeoutId := false, timerLive := !s.timeoutId && s.timerLive },
        calls := [s.jobs],
        outcome := .error e } := by
  obtain ⟨bs, bt, ml, ap, ra, cm, jobs, fin, ti, tl, sd, ip, ni⟩ := s
  cases ti <;>
    simp_all [processJobsRun, processJobsPhase1]

/-- Memory estimator used by the concrete traces: every job estimates 0 MB. -/
def calcZero : Nat → Rat := fun _ => 0

/-- Batch processor that resolves with an empty result list. -/
def bpOk : List (Nat × Nat) → Except String (List (JobResult Nat)) := fun _ => .ok []

/-- Batch processor that rejects with "boom". -/
def bpBoom : List (Nat × Nat) → Except String (List (JobResult Nat)) := fun _ => .error "boom"

/-- A concrete configuration with the given batchSize. -/
def cfgDemo (bs : Int) : YaMicroBatcherConfig :=
  { batchSize := some bs, batchTimeout := some 1000 }

/-- The freshly constructed state for cfgDemo (note the constructor has
already turned the supplied batchTimeout 1000 into 100000). -/
def demoState (bs : Int) : BatcherState Nat :=
  { batchSize := bs
    batchTimeout := some 100000
    memoryLimit := 10
    autoProcessOnMemoryLimit := false
    returnAck := false
    currentMemory := 0
    jobs := []
    finishedJobs := []
    timeoutId := false
    timerLive := false
    shutDown := false
    isProcessing := false
    nextId := 0 }

/-- Interleaved trace, first step: on a fresh batcher with batchSize 1,
submit job 10; the size trigger fires, and processJobsPhase1 runs up to the
await of the processor. The pair is (state at the suspension point, snapshot
handed to the processor). -/
def duringFire1 : BatcherState Nat × Option (List (Nat × Nat)) :=
  processJobsPhase1 (submitInsert calcZero (demoState 1) 10)

/-- Interleaved trace, second step: while the first fire's processor call is
outstanding, submit job 20; it is accepted into the replacement container
and trigger evaluation skips (isProcessing is true). -/
def duringFire2 : SubmitOut Nat := submitRun calcZero bpOk duringFire1.1 20

/-- Interleaved trace, third step: the first fire's processor resolves (one
PROCESSED result for job id 0) and the continuation of processJobs runs. -/
def duringFire3 : BatcherState Nat :=
  processJobsPhase2Ok [(0, 10)] [{ status := .PROCESSED, jobId := 0, result := some 10 }]
    duringFire2.state

/-- Claim C1: the snapshot swap in processJobs is synchronous, so a job
submitted while the processor call is outstanding lands in the replacement
container and not in the fired snapshot — but the `this.jobs.clear()` the
source runs after the await erases the replacement container, so such a job
is silently dropped when the fire completes: it appears in no batch and
jobStatus reports NOT_FOUND for it. Concretely: batchSize 1; submitting job
10 fires with snapshot [(0, 10)]; job 20 submitted during the outstanding
call is accepted and stored as [(1, 20)] with no second processor call; when
the first fire's continuation runs, the pending container is empty. -/
theorem jobs_submitted_during_inflight_fire_are_dropped :
    mkBatcher Nat (cfgDemo 1) = .ok (demoState 1) ∧
    scheduleDecision (submitInsert calcZero (demoState 1) 10) = .fire ∧
    duringFire1.2 = some [(0, 10)] ∧
    duringFire1.1.isProcessing = true ∧
    duringFire2.outcome = .ok () ∧
    duringFire2.state.jobs = [(1, 20)] ∧
    duringFire2.calls = [] ∧
    duringFire3.jobs = [] ∧
    jobStatus duringFire3 1 = { status := .NOT_FOUND, jobId := 1 } := by
  decide

/-- Counterexample to claim C2: on a state with one pending job and a
processor that rejects, processJobs propagates the rejection but leaves
isProcessing true — the flag is not cleared on the failure path. -/
theorem processor_failure_leaves_isProcessing_true :
    (processJobsRun bpBoom { demoState 1 with jobs := [(0, 10)], nextId := 1 }).outcome
        = .error "boom" ∧
    (processJobsRun bpBoom { demoState 1 with jobs := [(0, 10)], nextId := 1 }).state.isProcessing
        = true := by
  decide

/-- Claim C2 as amended: when BatchProcessor resolves, isProcessing is reset
to false after result recording completes; when it raises, the error
propagates to the invoker of the fire but isProcessing is NOT cleared — it
remains true. -/
theorem processJobs_flag_clearing {T : Type} (s : BatcherState T)
    (bp : List (Nat × T) → Except String (List (JobResult T))) :
    (∀ rs, bp s.jobs = .ok rs →
      (processJobsRun bp s).state.isProcessing = false ∧
      (processJobsRun bp s).outcome = .ok ()) ∧
    (∀ e, s.jobs ≠ [] → bp s.jobs = .error e →
      (processJobsRun bp s).state.isProcessing = true ∧
      (processJobsRun bp s).outcome = .error e) := by
  constructor
  · intro rs hok
    by_cases hj : s.jobs = []
    · simp [processJobsRun_empty bp s hj]
    · simp [processJobsRun_ok bp s rs hj hok]
  · intro e hne herr
    simp [processJobsRun_error bp s e hne herr]

/-- Witness for processJobs_flag_clearing at a concrete input: one pending
job, a resolving processor clears the flag, a rejecting processor leaves it
set. -/
theorem processJobs_flag_clearing_witness :
    (processJobsRun bpOk { demoState 1 with jobs := [(0, 10)], nextId := 1 }).state.isProcessing
        = false ∧
    (processJobsRun bpBoom { demoState 2 with jobs := [(0, 10)], nextId := 1 }).state.isProcessing
        = true := by
  refine ⟨?_, ?_⟩
  · exact ((processJobs_flag_clearing { demoState 1 with jobs := [(0, 10)], nextId := 1 }
      bpOk).1 [] (by decide)).1
  · exact ((processJobs_flag_clearing { demoState 2 with jobs := [(0, 10)], nextId := 1 }
      bpBoom).2 "boom" (by decide) (by decide)).1

/-- Counterexample to claim C3: with one batch-fire outstanding
(isProcessing is true and its processor call unresolved) and a job
accumulated in the replacement container, forceProcess invokes the fire path
unconditionally and hands a second snapshot to the processor — a second
batch-fire starts while the first is in flight. -/
theorem forceProcess_starts_second_fire_while_inflight :
    duringFire2.state.isProcessing = true ∧
    (forceProcessRun bpOk duringFire2.state).calls = [[(1, 20)]] := by
  decide

/-- Claim C3 as amended: the trigger-evaluation step is the sole enforcement
point of exclusivity — while a fire is in flight it neither fires nor arms
the timer nor changes any state, so submit-triggered evaluation never starts
a second fire; but forceProcess (and the drain inside shutdown, which calls
the same unguarded fire path) does not check isProcessing and hands the
pending jobs to the processor regardless, so it can start a second
batch-fire while one is outstanding. -/
theorem trigger_evaluation_sole_enforcement {T : Type} (s : BatcherState T)
    (bp : List (Nat × T) → Except String (List (JobResult T)))
    (hp : s.isProcessing = true) :
    (processingSheduleRun bp s).state = s ∧
    (processingSheduleRun bp s).calls = [] ∧
    (processingSheduleRun bp s).outcome = .ok () ∧
    (s.jobs ≠ [] → (forceProcessRun bp s).calls = [s.jobs]) := by
  have hd : scheduleDecision s = .skip := by simp [scheduleDecision, hp]
  refine ⟨by simp [processingSheduleRun, hd], by simp [processingSheduleRun, hd],
    by simp [processingSheduleRun, hd], ?_⟩
  intro hne
  cases hbp : bp s.jobs with
  | ok rs => simp [forceProcessRun, processJobsRun_ok bp s rs hne hbp]
  | error e => simp [forceProcessRun, processJobsRun_error bp s e hne hbp]

/-- Witness for trigger_evaluation_sole_enforcement at the concrete mid-fire
state of the interleaved trace. -/
theorem trigger_evaluation_sole_enforcement_witness :
    (processingSheduleRun bpOk duringFire2.state).calls = [] ∧
    (forceProcessRun bpOk duringFire2.state).calls = [duringFire2.state.jobs] := by
  exact ⟨(trigger_evaluation_sole_enforcement duringFire2.state bpOk (by decide)).2.1,
    (trigger_evaluation_sole_enforcement duringFire2.state bpOk (by decide)).2.2.2
      (by decide)⟩

/-- Claim C4: the batchTimeout expression of the constructor (source line
64) diverges from the documented default 1000 / cap 100000: a supplied value
of 1 (which is at most 100000 and should stay 1) is turned into 100000, and
an omitted value (which should default to 1000) is left undefined. -/
theorem batchTimeout_construction_diverges :
    computeBatchTimeout (some 1) = some 100000 ∧
    computeBatchTimeout none = none ∧
    ((mkBatcher Nat { batchTimeout := some 1 }).toOption.map fun s => s.batchTimeout)
        = some (some 100000) ∧
    ((mkBatcher Nat {}).toOption.map fun s => s.batchTimeout) = some none := by
  decide

/-- State of a fresh batcher (batchSize 100) after one submit that armed the
debounce timer. -/
def timerArmedState : BatcherState Nat := (submitRun calcZero bpOk (demoState 100) 10).state

/-- Counterexample to claim C5: on timer expiry the armed callback is a bare
processJobs with no rejection handler, so when the processor rejects the
failure reaches no error logger and is left as an unobserved rejection. -/
theorem timer_fire_rejection_unobserved :
    timerArmedState.timerLive = true ∧
    (timerExpireRun bpBoom timerArmedState).unhandled = ["boom"] ∧
    (timerExpireRun bpBoom timerArmedState).loggedErrors = [] := by
  decide

/-- Claim C5 as amended: a failure of an unattended fire started by the size
or memory trigger is forwarded to the error-logging collaborator and
swallowed (trigger evaluation itself resolves); but a fire started by timer
expiry has no handler attached, so its failure is not forwarded to the
logger and is left as an unobserved rejection. -/
theorem unattended_fire_error_policy {T : Type} (s : BatcherState T)
    (bp : List (Nat × T) → Except String (List (JobResult T))) (e : String)
    (hd : scheduleDecision s = .fire) (hne : s.jobs ≠ [])
    (hbp : bp s.jobs = .error e) :
    (processingSheduleRun bp s).loggedErrors = [e] ∧
    (processingSheduleRun bp s).unhandled = [] ∧
    (processingSheduleRun bp s).outcome = .ok () ∧
    (timerExpireRun bp s).unhandled = [e] ∧
    (timerExpireRun bp s).loggedErrors = [] := by
  simp [processingSheduleRun, timerExpireRun, hd, processJobsRun_error bp s e hne hbp]

/-- Witness for unattended_fire_error_policy at a concrete input: one
pending job on a batchSize-1 batcher (size trigger holds) and a rejecting
processor. -/
theorem unattended_fire_error_policy_witness :
    (processingSheduleRun bpBoom { demoState 1 with jobs := [(0, 10)], nextId := 1 }).loggedErrors
        = ["boom"] ∧
    (timerExpireRun bpBoom { demoState 1 with jobs := [(0, 10)], nextId := 1 }).unhandled
        = ["boom"] := by
  have h := unattended_fire_error_policy { demoState 1 with jobs := [(0, 10)], nextId := 1 }
    bpBoom "boom" (by decide) (by decide) (by decide)
  exact ⟨h.1, h.2.2.2.1⟩

/-- shutdownRun with nothing pending: set the flag, cancel (without nulling)
the timer, make no processor call. -/
theorem shutdownRun_empty {T : Type}
    (bp : List (Nat × T) → Except String (List (JobResult T)))
    (s : BatcherState T) (h : s.jobs = []) :
    shutdownRun bp s =
      { state := { s with shutDown := true, timerLive := !s.timeoutId && s.timerLive } } := by
  obtain ⟨bs, bt, ml, ap, ra, cm, jobs, fin, ti, tl, sd, ip, ni⟩ := s
  subst h
  cases ti <;> simp [shutdownRun]

/-- shutdownRun with pending jobs: set the flag, cancel the timer, then run
processJobs on the resulting state. -/
theorem shutdownRun_nonempty {T : Type}
    (bp : List (Nat × T) → Except String (List (JobResult T)))
    (s : BatcherState T) (h : s.jobs ≠ []) :
    shutdownRun bp s =
      processJobsRun bp { s with shutDown := true, timerLive := !s.timeoutId && s.timerLive } := by
  obtain ⟨bs, bt, ml, ap, ra, cm, jobs, fin, ti, tl, sd, ip, ni⟩ := s
  cases jobs with
  | nil => exact absurd rfl h
  | cons hd tl₂ => cases ti <;> simp [shutdownRun]

/-- Claim C6: shutdown sets the shut-down flag and cancels the active timer;
with pending jobs it performs exactly one batch-fire handing the entire
pending map (all accepted jobs, in insertion order) to the processor, and
its own promise resolves after that fire completes (when the processor
resolves); with no pending jobs it resolves without invoking the
processor. In this big-step model, every call listed in calls completes
before the operation's outcome is produced, which renders "resolves only
after the fire completes". The hypothesis hlive is the reachable-state
invariant that a live timer implies a non-null timeoutId field. -/
theorem shutdown_drains_pending_jobs {T : Type} (s : BatcherState T)
    (bp : List (Nat × T) → Except String (List (JobResult T)))
    (hlive : s.timerLive = true → s.timeoutId = true) :
    (shutdownRun bp s).state.shutDown = true ∧
    (shutdownRun bp s).state.timerLive = false ∧
    (s.jobs = [] → (shutdownRun bp s).calls = [] ∧ (shutdownRun bp s).outcome = .ok ()) ∧
    (s.jobs ≠ [] → (shutdownRun bp s).calls = [s.jobs] ∧
      ∀ rs, bp s.jobs = .ok rs → (shutdownRun bp s).outcome = .ok ()) := by
  have htl : (!s.timeoutId && s.timerLive) = false := by
    cases ht : s.timeoutId
    · cases htl₂ : s.timerLive
      · simp
      · exact absurd (hlive htl₂) (by simp [ht])
    · simp
  by_cases hj : s.jobs = []
  · rw [shutdownRun_empty bp s hj, htl]
    simp [hj]
  · rw [shutdownRun_nonempty bp s hj, htl]
    have hj₂ : ({ s with shutDown := true, timerLive := false } : BatcherState T).jobs ≠ [] := hj
    cases hbp : bp s.jobs with
    | ok rs =>
      rw [processJobsRun_ok bp _ rs hj₂ hbp]
      simp [hj]
    | error e =>
      rw [processJobsRun_error bp _ e hj₂ hbp]
      simp [hj, hbp]

/-- A batcher with one pending job and a live debounce timer. -/
def oneJobLiveTimer : BatcherState Nat :=
  { demoState 3 with jobs := [(0, 10)], nextId := 1, timeoutId := true, timerLive := true }

/-- A batcher with two pending jobs and a live debounce timer. -/
def twoJobsLiveTimer : BatcherState Nat :=
  { demoState 3 with jobs := [(0, 10), (1, 20)], nextId := 2, timeoutId := true, timerLive := true }

/-- Witness for shutdown_drains_pending_jobs at a concrete input: a batcher
with one pending job and a live timer; shutdown cancels the timer and hands
the whole pending map to the processor. -/
theorem shutdown_drains_pending_jobs_witness :
    (shutdownRun bpOk oneJobLiveTimer).state.timerLive = false ∧
    (shutdownRun bpOk oneJobLiveTimer).calls = [[(0, 10)]] := by
  have h := shutdown_drains_pending_jobs oneJobLiveTimer bpOk (fun _ => rfl)
  exact ⟨h.2.1, (h.2.2.2 (by decide)).1⟩

/-- Claim C7: stop sets the shut-down flag, replaces the pending map with an
empty container without ever invoking the processor for the discarded jobs
(stopRun makes no processor call at all), cancels the active timer, and
jobCount returns 0 afterwards. The hypothesis hlive is the reachable-state
invariant that a live timer implies a non-null timeoutId field. -/
theorem stop_discards_pending_jobs {T : Type} (s : BatcherState T)
    (hlive : s.timerLive = true → s.timeoutId = true) :
    (stopRun s).state.shutDown = true ∧
    (stopRun s).state.jobs = [] ∧
    (stopRun s).calls = [] ∧
    (stopRun s).state.timerLive = false ∧
    jobCount (stopRun s).state = 0 := by
  have htl : (!s.timeoutId && s.timerLive) = false := by
    cases ht : s.timeoutId
    · cases htl₂ : s.timerLive
      · simp
      · exact absurd (hlive htl₂) (by simp [ht])
    · simp
  obtain ⟨bs, bt, ml, ap, ra, cm, jobs, fin, ti, tl, sd, ip, ni⟩ := s
  cases ti <;> cases ip <;> simp_all [stopRun, jobCount]

/-- Witness for stop_discards_pending_jobs at a concrete input: a batcher
with two pending jobs and a live timer. -/
theorem stop_discards_pending_jobs_witness :
    (stopRun twoJobsLiveTimer).state.jobs = [] ∧
    jobCount (stopRun twoJobsLiveTimer).state = 0 := by
  have h := stop_discards_pending_jobs twoJobsLiveTimer (fun _ => rfl)
  exact ⟨h.2.1, h.2.2.2.2⟩

/-- Claim C8: submit on a shut-down batcher returns a rejected promise
carrying the fixed message and changes nothing: the returned record equals
the input state verbatim (no identifier generated, nothing stored, memory
untouched), with no processor call, no logged or unhandled error, and no
acknowledgement — in particular trigger evaluation never ran. -/
theorem submit_rejected_after_shutdown {T : Type} (s : BatcherState T)
    (calcMem : T → Rat)
    (bp : List (Nat × T) → Except String (List (JobResult T)))
    (job : T) (h : s.shutDown = true) :
    submitRun calcMem bp s job =
      { state := s, outcome := .error "MicroBatcher is shutdown" } := by
  simp [submitRun, h]

/-- A shut-down batcher. -/
def shutDownState : BatcherState Nat := { demoState 3 with shutDown := true }

/-- Witness for submit_rejected_after_shutdown at a concrete input. -/
theorem submit_rejected_after_shutdown_witness :
    submitRun calcZero bpOk shutDownState 10 =
      { state := shutDownState, outcome := .error "MicroBatcher is shutdown" } :=
  submit_rejected_after_shutdown shutDownState calcZero bpOk 10 rfl

/-- Counterexample to claim C9: construction with batchSize -5 stores -5 —
below 1 — so batchSize is not clamped to the interval with lower bound 1. -/
theorem batchSize_below_one_possible :
    ((mkBatcher Nat { batchSize := some (-5) }).toOption.map fun s => s.batchSize)
        = some (-5) ∧
    (-5 : Int) < 1 := by
  decide

/-- Claim C9 as amended: construction assigns batchSize 10 when the
configuration omits it or supplies 0; every supplied nonzero value above
1000 becomes 1000; every other supplied nonzero value — including values
below 1 — is left unchanged, so there is no lower clamp. -/
theorem batchSize_construction :
    computeBatchSize none = 10 ∧
    computeBatchSize (some 0) = 10 ∧
    (∀ n : Int, n ≠ 0 → n > 1000 → computeBatchSize (some n) = 1000) ∧
    (∀ n : Int, n ≠ 0 → n ≤ 1000 → computeBatchSize (some n) = n) := by
  refine ⟨rfl, by decide, ?_, ?_⟩
  · intro n h0 hgt
    simp [computeBatchSize, h0, hgt]
  · intro n h0 hle
    have hngt : ¬n > 1000 := not_lt.mpr hle
    simp [computeBatchSize, h0, hngt]

/-- Witness for batchSize_construction at a concrete input: the supplied
value -5 is kept verbatim. -/
theorem batchSize_construction_witness : computeBatchSize (some (-5)) = -5 :=
  batchSize_construction.2.2.2 (-5) (by decide) (by decide)

/-- Claim C10: on a live (not shut down) batcher configured with returnAck,
a submit that does not start an immediate fire (after insertion the pending
count is below batchSize and the memory trigger does not hold) resolves to
an acknowledgement whose jobId is exactly the key under which the job was
stored, and jobStatus on that id immediately afterwards returns the
SUBMITTED record carrying the same id. -/
theorem submit_ack_matches_stored_key {T : Type} (s : BatcherState T)
    (calcMem : T → Rat)
    (bp : List (Nat × T) → Except String (List (JobResult T)))
    (job : T)
    (hsd : s.shutDown = false) (hra : s.returnAck = true)
    (hsize : ((mapSet s.jobs s.nextId job).length : Int) < s.batchSize)
    (hmem : ¬(s.autoProcessOnMemoryLimit = true ∧
      s.currentMemory + calcMem job ≥ s.memoryLimit)) :
    (submitRun calcMem bp s job).ack = some { status := .SUBMITTED, jobId := s.nextId } ∧
    lookupKV (submitRun calcMem bp s job).state.jobs s.nextId = some job ∧
    jobStatus (submitRun calcMem bp s job).state s.nextId =
      { status := .SUBMITTED, jobId := s.nextId } := by
  obtain ⟨bs, bt, ml, ap, ra, cm, jobs, fin, ti, tl, sd, ip, ni⟩ := s
  simp only at hsd hra hsize hmem
  subst hsd
  subst hra
  have hcond : ¬(((mapSet jobs ni job).length : Int) ≥ bs ∨
      (ap = true ∧ cm + calcMem job ≥ ml)) := by
    rintro (h | h)
    · exact absurd h (not_le.mpr hsize)
    · exact hmem h
  cases hip : ip <;>
    simp [submitRun, submitInsert, processingSheduleRun, scheduleDecision, jobStatus,
      hcond, lookupKV_mapSet_self]

/-- A live batcher (batchSize 3) configured to return acknowledgements. -/
def ackState : BatcherState Nat := { demoState 3 with returnAck := true }

/-- Witness for submit_ack_matches_stored_key at a concrete input: first
submit on a fresh returnAck batcher with batchSize 3. -/
theorem submit_ack_matches_stored_key_witness :
    (submitRun calcZero bpOk ackState 10).ack = some { status := .SUBMITTED, jobId := 0 } ∧
    jobStatus (submitRun calcZero bpOk ackState 10).state 0 =
      { status := .SUBMITTED, jobId := 0 } := by
  have h := submit_ack_matches_stored_key ackState calcZero bpOk 10 rfl rfl
    (by decide) (by decide)
  exact ⟨h.1, h.2.2⟩
